import Mathlib

/-!
Shallow embedding of the core of the `taa-demo` repository (a Three.js
temporal-antialiasing demo) and verification of its specification claims.

Machine numbers of the JavaScript source (IEEE doubles / GLSL floats) are
modelled as exact rationals: every claim settled here concerns ranges,
determinism, ordering, resource counting and exact algebraic structure, none
of which depend on rounding.  Textures are modelled as total functions from
UV coordinates to texels; `texture2D` applies the clamp-to-edge sampling that
THREE render targets use by default.
-/

namespace TaaDemo

/-! ### Halton jitter sequence
Embeds `TaaRenderPass.prototype._haltonNumber` and
`TaaRenderPass.prototype._generateHaltonJiters` (src/TaaRenderPass.js).
-/

/-- Loop of `_haltonNumber`, made structural with a fuel argument.  The JS
loop is `while (index > 0) { f /= base; result += f * (index % base);
index = Math.floor(index / base); }`.  For `base ≥ 2` (the only bases the
source uses, 2 and 3) the loop runs at most `index` times, so fuel `index`
is never exhausted; this adequacy is proved below
(`haltonLoop_fuel_succ` and friends).  For `base ≤ 1` the JS loop would not
terminate; the fueled model simply stops, which is outside every claim. -/
def haltonLoop (base : ℕ) : ℕ → ℕ → ℚ → ℚ → ℚ
  | 0, _, _, result => result
  | fuel + 1, index, f, result =>
    if index = 0 then result
    else
      haltonLoop base fuel (index / base) (f / (base : ℚ))
        (result + (f / (base : ℚ)) * ((index % base : ℕ) : ℚ))

/-- Embeds `_haltonNumber(base, index)`: value of the Halton sequence of the
given base at the given index. -/
def haltonNumber (base index : ℕ) : ℚ :=
  haltonLoop base index index 1 0

/-- Embeds `_generateHaltonJiters(length)`: the JS loop runs `i` from 1 to
`length` and pushes `[(halton(2,i) - 0.5) * 2, (halton(3,i) - 0.5) * 2]`. -/
def generateHaltonJiters (length : ℕ) : List (ℚ × ℚ) :=
  (List.range length).map fun k =>
    ((haltonNumber 2 (k + 1) - 1/2) * 2, (haltonNumber 3 (k + 1) - 1/2) * 2)

/-! ### Motion-vector encode and decode
Encode: fragment shader of `MotionVectorRenderer.prototype._baseMaterial`
(src/MotionVectorRenderer.js): `motionColor = ((colorScale * motion) + 2.0) / 4.0`.
Decode: fragment shader of `TaaRenderPass.prototype._baseReprojectionMaterial`
(src/TaaRenderPass.js): `oldPixelUv = Uv - ((pixelMovement.xy * 2.0) - 1.0)`.
-/

/-- One component of the motion-buffer encoding. -/
def encodeMotionComponent (colorScale m : ℚ) : ℚ :=
  (colorScale * m + 2) / 4

/-- The xy part of the motion-buffer encoding (the compositor reads only xy). -/
def encodeMotion (colorScale : ℚ) (d : ℚ × ℚ) : ℚ × ℚ :=
  (encodeMotionComponent colorScale d.1, encodeMotionComponent colorScale d.2)

/-- The displacement the compositor decodes from a motion-buffer color:
`(pixelMovement.xy * 2.0) - 1.0`. -/
def decodeMotion (c : ℚ × ℚ) : ℚ × ℚ :=
  (c.1 * 2 - 1, c.2 * 2 - 1)

/-- The history lookup coordinate of the compositor:
`Uv - ((pixelMovement.xy * 2.0) - 1.0)`. -/
def reprojectedUv (uv pm : ℚ × ℚ) : ℚ × ℚ :=
  (uv.1 - (decodeMotion pm).1, uv.2 - (decodeMotion pm).2)

/-! ### The reprojection fragment shader
Embeds the fragment shader of
`TaaRenderPass.prototype._baseReprojectionMaterial` (src/TaaRenderPass.js).
-/

/-- A GLSL vec4 texel. -/
structure Vec4 where
  x : ℚ
  y : ℚ
  z : ℚ
  w : ℚ
deriving DecidableEq

/-- Componentwise GLSL max. -/
def max4 (a b : Vec4) : Vec4 :=
  ⟨max a.x b.x, max a.y b.y, max a.z b.z, max a.w b.w⟩

/-- Componentwise GLSL min. -/
def min4 (a b : Vec4) : Vec4 :=
  ⟨min a.x b.x, min a.y b.y, min a.z b.z, min a.w b.w⟩

/-- GLSL clamp: `clamp(v, lo, hi) = min(max(v, lo), hi)` componentwise. -/
def clamp4 (v lo hi : Vec4) : Vec4 :=
  min4 (max4 v lo) hi

/-- Componentwise vec4 addition. -/
def add4 (a b : Vec4) : Vec4 :=
  ⟨a.x + b.x, a.y + b.y, a.z + b.z, a.w + b.w⟩

/-- Scalar times vec4. -/
def smul4 (t : ℚ) (v : Vec4) : Vec4 :=
  ⟨t * v.x, t * v.y, t * v.z, t * v.w⟩

/-- Vec4 divided by a scalar. -/
def div4 (v : Vec4) (t : ℚ) : Vec4 :=
  ⟨v.x / t, v.y / t, v.z / t, v.w / t⟩

/-- GLSL mix: `mix(a, b, t) = a * (1 - t) + b * t` componentwise. -/
def mix4 (a b : Vec4) (t : ℚ) : Vec4 :=
  add4 (smul4 (1 - t) a) (smul4 t b)

/-- Rational model of the GLSL square root: exact whenever the argument is the
square of a rational (in particular at 0), which covers every evaluation in
this development; elsewhere it takes floor square roots of numerator and
denominator, standing in for the rounded float result. -/
def ratSqrt (q : ℚ) : ℚ :=
  (Nat.sqrt q.num.toNat : ℚ) / (Nat.sqrt q.den : ℚ)

/-- GLSL distance between two vec4 values. -/
def glslDistance (a b : Vec4) : ℚ :=
  ratSqrt ((a.x - b.x)^2 + (a.y - b.y)^2 + (a.z - b.z)^2 + (a.w - b.w)^2)

/-- Clamp a coordinate into [0, 1]. -/
def clamp01 (q : ℚ) : ℚ :=
  min (max q 0) 1

/-- Clamp a UV pair into the unit square. -/
def clampUV (p : ℚ × ℚ) : ℚ × ℚ :=
  (clamp01 p.1, clamp01 p.2)

/-- Texture lookup with the clamp-to-edge wrap that THREE render targets use
by default; the texture itself is idealized as a total function on UV. -/
def texture2D (t : ℚ × ℚ → Vec4) (p : ℚ × ℚ) : Vec4 :=
  t (clampUV p)

/-- Uniforms of the reprojection material, as set by
`TaaRenderPass.prototype.render` and `TargetCopier.prototype.copy`
(`opacity` is set to 1.0 there). -/
structure ReprojectUniforms where
  opacity : ℚ
  width : ℚ
  height : ℚ
  tDiffuse : ℚ × ℚ → Vec4
  tMotion : ℚ × ℚ → Vec4
  tLastFrame : ℚ × ℚ → Vec4

/-- Offsets of the 3x3 neighborhood loop, in source order
(`for x in -1..1` outer, `for y in -1..1` inner). -/
def neighborOffsets : List (ℚ × ℚ) :=
  [(-1, -1), (-1, 0), (-1, 1), (0, -1), (0, 0), (0, 1), (1, -1), (1, 0), (1, 1)]

/-- The neighborhood loop of the shader: running (max, min, average) over the
nine samples `tDiffuse(Uv + (x / width, y / height))`, starting from
`maxNeighbor = (0,0,0,1)`, `minNeighbor = (1,1,1,1)`, `average = 0`. -/
def neighborhoodScan (u : ReprojectUniforms) (uv : ℚ × ℚ) : Vec4 × Vec4 × Vec4 :=
  neighborOffsets.foldl
    (fun acc d =>
      let t := texture2D u.tDiffuse (uv.1 + d.1 / u.width, uv.2 + d.2 / u.height)
      (max4 acc.1 t, min4 acc.2.1 t, add4 acc.2.2 (div4 t 9)))
    (⟨0, 0, 0, 1⟩, ⟨1, 1, 1, 1⟩, ⟨0, 0, 0, 0⟩)

/-- The fragment shader of the reprojection material, line by line:
sample current and motion texels, reproject, sample history, scan the 3x3
neighborhood, clamp history into [min, max], blend by `0.05 * contrast`,
scale by `opacity`. -/
def reprojectFragment (u : ReprojectUniforms) (uv : ℚ × ℚ) : Vec4 :=
  let texel := texture2D u.tDiffuse uv
  let pm := texture2D u.tMotion uv
  let oldUv := reprojectedUv uv (pm.x, pm.y)
  let oldSample := texture2D u.tLastFrame oldUv
  let scan := neighborhoodScan u uv
  let oldTexel := clamp4 oldSample scan.2.1 scan.1
  let weight := (1/20) * glslDistance scan.2.2 texel
  smul4 u.opacity (mix4 oldTexel texel weight)

/-- A UV coordinate lies in the unit range. -/
def inUnitUV (p : ℚ × ℚ) : Prop :=
  0 ≤ p.1 ∧ p.1 ≤ 1 ∧ 0 ≤ p.2 ∧ p.2 ≤ 1

instance (p : ℚ × ℚ) : Decidable (inUnitUV p) := by
  unfold inUnitUV; infer_instance

/-- Closed-form description of what the shader actually computes for a pixel,
written out straight-line per the corrected claims: the history texture is
sampled at the reprojected coordinate clamped componentwise into the unit
square (clamp-to-edge), never discarded; the nine neighborhood samples are
listed explicitly in loop order; running max starts at (0,0,0,1), running min
at (1,1,1,1) and the average at 0, exactly as the shader initializes them;
the composite is the clamped history blended toward the current texel with
weight `0.05 * distance(average, texel)`, scaled by `opacity`. -/
def compositeReference (u : ReprojectUniforms) (uv : ℚ × ℚ) : Vec4 :=
  let texel := u.tDiffuse (clampUV uv)
  let pm := u.tMotion (clampUV uv)
  let histSample := u.tLastFrame (clampUV (reprojectedUv uv (pm.x, pm.y)))
  let t0 := u.tDiffuse (clampUV (uv.1 + (-1) / u.width, uv.2 + (-1) / u.height))
  let t1 := u.tDiffuse (clampUV (uv.1 + (-1) / u.width, uv.2 + 0 / u.height))
  let t2 := u.tDiffuse (clampUV (uv.1 + (-1) / u.width, uv.2 + 1 / u.height))
  let t3 := u.tDiffuse (clampUV (uv.1 + 0 / u.width, uv.2 + (-1) / u.height))
  let t4 := u.tDiffuse (clampUV (uv.1 + 0 / u.width, uv.2 + 0 / u.height))
  let t5 := u.tDiffuse (clampUV (uv.1 + 0 / u.width, uv.2 + 1 / u.height))
  let t6 := u.tDiffuse (clampUV (uv.1 + 1 / u.width, uv.2 + (-1) / u.height))
  let t7 := u.tDiffuse (clampUV (uv.1 + 1 / u.width, uv.2 + 0 / u.height))
  let t8 := u.tDiffuse (clampUV (uv.1 + 1 / u.width, uv.2 + 1 / u.height))
  let nMax :=
    max4 (max4 (max4 (max4 (max4 (max4 (max4 (max4 (max4 ⟨0, 0, 0, 1⟩ t0) t1) t2) t3) t4) t5) t6) t7) t8
  let nMin :=
    min4 (min4 (min4 (min4 (min4 (min4 (min4 (min4 (min4 ⟨1, 1, 1, 1⟩ t0) t1) t2) t3) t4) t5) t6) t7) t8
  let nAvg :=
    add4 (add4 (add4 (add4 (add4 (add4 (add4 (add4 (add4 ⟨0, 0, 0, 0⟩ (div4 t0 9)) (div4 t1 9)) (div4 t2 9)) (div4 t3 9)) (div4 t4 9)) (div4 t5 9)) (div4 t6 9)) (div4 t7 9)) (div4 t8 9)
  smul4 u.opacity (mix4 (clamp4 histSample nMin nMax) texel ((1/20) * glslDistance nAvg texel))

/-- Example uniforms witnessing the missing out-of-bounds fallback: the
motion texture decodes to displacement (1, 0), which sends the pixel at
UV (1/4, 1/2) to the off-screen coordinate (-3/4, 1/2); the current-frame
texture varies only with the x coordinate and symmetrically around the
center texel, so the 3x3 average equals the center texel and the blend
weight is 0; the history texture is a constant 3/5 in red, strictly inside
the neighborhood min/max. -/
def exampleC1 : ReprojectUniforms where
  opacity := 1
  width := 4
  height := 4
  tDiffuse := fun p =>
    ⟨if p.1 < 1/4 then 3/10 else if p.1 = 1/4 then 1/2 else 7/10, 1/2, 1/2, 1⟩
  tMotion := fun _ => ⟨1, 1/2, 1/2, 1⟩
  tLastFrame := fun _ => ⟨3/5, 1/2, 1/2, 1⟩

/-- The pixel examined in the out-of-bounds counterexample. -/
def exampleC1Uv : ℚ × ℚ := (1/4, 1/2)

/-! ### TaaRenderPass render sequencing
Embeds `TaaRenderPass.prototype.render` (src/TaaRenderPass.js) as a state
machine over the pass state that matters to sequencing, emitting a trace of
the externally visible operations in source order.
-/

/-- Operations performed by `TaaRenderPass.prototype.render`, in the order
the source issues them.  Scene renders record the camera jitter in force at
that point (`none` = the projection is un-jittered). -/
inductive TaaOp where
  | allocHistory
  | renderSceneToHistory (jitter : Option (ℚ × ℚ))
  | renderMotionMap (jitter : Option (ℚ × ℚ))
  | applyJitter (j : ℚ × ℚ)
  | renderScene (jitter : Option (ℚ × ℚ))
  | clearJitter
  | copyReproject
  | copyToHistory
  | copyToOutput
deriving DecidableEq

/-- Sequencing-relevant state of a `TaaRenderPass` plus the camera it
mutates: whether `_oldFrameTarget` exists, `_jitterIndex`, the jitter
currently written into the projection matrix, and the renderer size. -/
structure TaaState where
  hasHistory : Bool
  jitterIndex : ℕ
  cameraJitter : Option (ℚ × ℚ)
  width : ℚ
  height : ℚ
deriving DecidableEq

/-- The jitter table built in the constructor:
`this._jitterOffsets = this._generateHaltonJiters(16)`. -/
def jitterOffsets : List (ℚ × ℚ) :=
  generateHaltonJiters 16

/-- The body of `render` after the bootstrap `if` block, in source order:
render the motion map (camera still as it was), write
`jitterX / width, jitterY / height` into the projection, render the scene
into the read buffer, clear the jitter via `updateProjectionMatrix`, advance
`_jitterIndex` modulo the table length, then the three `TargetCopier` copies
(read buffer through the reprojection material into scratch, scratch into
history, history to the output). -/
def renderBody (s : TaaState) : TaaState × List TaaOp :=
  let j := jitterOffsets.getD s.jitterIndex (0, 0)
  let applied : ℚ × ℚ := (j.1 / s.width, j.2 / s.height)
  ({ s with cameraJitter := none,
            jitterIndex := (s.jitterIndex + 1) % jitterOffsets.length },
   [TaaOp.renderMotionMap s.cameraJitter,
    TaaOp.applyJitter applied,
    TaaOp.renderScene (some applied),
    TaaOp.clearJitter,
    TaaOp.copyReproject,
    TaaOp.copyToHistory,
    TaaOp.copyToOutput])

/-- Iterated steady-state renders, used for the bootstrap loop
`for (let i = 0; i < this._jitterOffsets.length - 1; i++) this.render(...)`:
every recursive call runs with `_oldFrameTarget` already set, so each
iteration is exactly `renderBody` (see `render_steady`). -/
def renderIter : ℕ → TaaState → TaaState × List TaaOp
  | 0, s => (s, [])
  | n + 1, s =>
    let r₁ := renderBody s
    let r₂ := renderIter n r₁.1
    (r₂.1, r₁.2 ++ r₂.2)

/-- Embeds `TaaRenderPass.prototype.render`: if `_oldFrameTarget` is absent
(Cold state), allocate it, render the scene directly into it with the camera
as-is, recurse `length - 1` times, then fall through to the regular body;
otherwise just the regular body. -/
def render (s : TaaState) : TaaState × List TaaOp :=
  if s.hasHistory then renderBody s
  else
    let s₁ := { s with hasHistory := true }
    let r₂ := renderIter (jitterOffsets.length - 1) s₁
    let r₃ := renderBody r₂.1
    (r₃.1, TaaOp.allocHistory :: TaaOp.renderSceneToHistory s.cameraJitter :: (r₂.2 ++ r₃.2))

/-- The pass state immediately after Temporal activation:
`_oldFrameTarget` not yet allocated, `_jitterIndex = 0`, camera clean. -/
def taaInit : TaaState :=
  ⟨false, 0, none, 4, 4⟩

/-- A steady-state (Warm) pass state with a clean camera. -/
def taaSteady : TaaState :=
  ⟨true, 0, none, 4, 4⟩

/-- Recognizes the history-initializing scene render. -/
def isHistoryInit : TaaOp → Bool
  | TaaOp.renderSceneToHistory _ => true
  | _ => false

/-- Recognizes any internal scene render (history bootstrap or jittered). -/
def isSceneRenderOp : TaaOp → Bool
  | TaaOp.renderSceneToHistory _ => true
  | TaaOp.renderScene _ => true
  | _ => false

/-- Recognizes the jittered steady-state scene render. -/
def isJitteredRender : TaaOp → Bool
  | TaaOp.renderScene _ => true
  | _ => false

/-- Recognizes the reprojection composite blit (the operation that reads the
history and motion buffers). -/
def isCompositeBlit : TaaOp → Bool
  | TaaOp.copyReproject => true
  | _ => false

/-- Recognizes the copy to the output (screen or write buffer). -/
def isOutputCopy : TaaOp → Bool
  | TaaOp.copyToOutput => true
  | _ => false

/-- Recognizes the motion-map render. -/
def isMotionMapOp : TaaOp → Bool
  | TaaOp.renderMotionMap _ => true
  | _ => false

/-- Recognizes the jitter application. -/
def isApplyJitterOp : TaaOp → Bool
  | TaaOp.applyJitter _ => true
  | _ => false

/-- Recognizes the jitter clear. -/
def isClearJitterOp : TaaOp → Bool
  | TaaOp.clearJitter => true
  | _ => false

/-- The stage order asserted by the specification for a steady-state frame:
jitter applied, then scene rendered, then the motion pass, then jitter
cleared. -/
def specStageOrder (ops : List TaaOp) : Prop :=
  ops.findIdx isApplyJitterOp < ops.findIdx isJitteredRender ∧
  ops.findIdx isJitteredRender < ops.findIdx isMotionMapOp ∧
  ops.findIdx isMotionMapOp < ops.findIdx isClearJitterOp

instance (ops : List TaaOp) : Decidable (specStageOrder ops) := by
  unfold specStageOrder; infer_instance

/-! ### RenderLoop mode switching
Embeds `AntiAliasingMode` and `RenderLoop.prototype.setAntialiasingMode`
(src/unnamed/part_000) as a state machine with an event trace recording
context rebuilds, pass disposals, pass constructions and the
invalid-mode diagnostic.
-/

namespace AntiAliasingMode

/-- Enumeration value `NONE`. -/
def NONE : ℤ := 0

/-- Enumeration value `MSAA`. -/
def MSAA : ℤ := 1

/-- Enumeration value `SSAA` (Supersampled). -/
def SSAA : ℤ := 2

/-- Enumeration value `TAA` (Temporal). -/
def TAA : ℤ := 3

/-- Enumeration value `MOTION` (MotionVisualization). -/
def MOTION : ℤ := 4

end AntiAliasingMode

/-- Externally visible events of a `setAntialiasingMode` call.  Constructed
pass objects are identified by a ghost counter so that allocations and
disposals can be counted per instance. -/
inductive RLEvent where
  | rebuildContext (mode : ℤ)
  | disposePass (id : ℕ)
  | allocPass (id : ℕ)
  | diagInvalidMode
deriving DecidableEq

/-- State of a `RenderLoop` relevant to mode switching: the current
`this.antialiasing` value (`none` models the field before first assignment),
the three pass fields (holding ghost ids; note the source never clears them
after disposal), the composer pass list, and the ghost id counter. -/
structure RLState where
  antialiasing : Option ℤ
  ssaaPass : Option ℕ
  taaPass : Option ℕ
  motionVec : Option ℕ
  composerPasses : List ℕ
  nextId : ℕ
deriving DecidableEq

/-- One conditional disposal of the cleanup block: dispose the pass the
field holds, if any. -/
def disposeOpt (o : Option ℕ) : List RLEvent :=
  match o with
  | some i => [RLEvent.disposePass i]
  | none => []

/-- The cleanup block of `setAntialiasingMode`: dispose `_ssaaPass`,
`_taaPass`, `_motionVecRenderer` whenever the fields are set (they are never
cleared, so a stale reference is disposed again). -/
def disposeEvents (s : RLState) : List RLEvent :=
  disposeOpt s.ssaaPass ++ disposeOpt s.taaPass ++ disposeOpt s.motionVec

/-- The `switch (mode)` statement of `setAntialiasingMode`: SSAA and TAA
construct a pass and add it to the composer, MOTION constructs the motion
renderer, NONE and MSAA do nothing, and any other value only reports
`console.error("Invalid AA Mode Set")`. -/
def switchStep (s : RLState) (mode : ℤ) : RLState × List RLEvent :=
  if mode = AntiAliasingMode.SSAA then
    ({ s with ssaaPass := some s.nextId,
              composerPasses := s.composerPasses ++ [s.nextId],
              nextId := s.nextId + 1 },
     [RLEvent.allocPass s.nextId])
  else if mode = AntiAliasingMode.TAA then
    ({ s with taaPass := some s.nextId,
              composerPasses := s.composerPasses ++ [s.nextId],
              nextId := s.nextId + 1 },
     [RLEvent.allocPass s.nextId])
  else if mode = AntiAliasingMode.MOTION then
    ({ s with motionVec := some s.nextId, nextId := s.nextId + 1 },
     [RLEvent.allocPass s.nextId])
  else if mode = AntiAliasingMode.NONE ∨ mode = AntiAliasingMode.MSAA then
    (s, [])
  else
    (s, [RLEvent.diagInvalidMode])

/-- Embeds `RenderLoop.prototype.setAntialiasingMode`: early return when the
mode is already active; otherwise rebuild the GL context when entering or
leaving MSAA, clear the composer pass list, dispose whatever pass fields are
set, run the switch, and unconditionally record `this.antialiasing = mode`,
including for unrecognized values. -/
def setAntialiasingMode (s : RLState) (mode : ℤ) : RLState × List RLEvent :=
  if s.antialiasing = some mode then (s, [])
  else
    let rebuildEvents : List RLEvent :=
      if s.antialiasing = some AntiAliasingMode.MSAA ∨ mode = AntiAliasingMode.MSAA
      then [RLEvent.rebuildContext mode] else []
    let cleaned := { s with composerPasses := [] }
    let switched := switchStep cleaned mode
    ({ switched.1 with antialiasing := some mode },
     rebuildEvents ++ disposeEvents s ++ switched.2)

/-- A sequence of `setAntialiasingMode` calls, accumulating the event trace. -/
def runModes (s : RLState) (modes : List ℤ) : RLState × List RLEvent :=
  modes.foldl
    (fun acc m =>
      let r := setAntialiasingMode acc.1 m
      (r.1, acc.2 ++ r.2))
    (s, [])

/-- A `RenderLoop` before its constructor runs `setAntialiasingMode`. -/
def blankRL : RLState :=
  ⟨none, none, none, none, [], 0⟩

/-- The mode churn of the resource-safety claim: initialization to None,
then Temporal, None, Temporal, None, Temporal. -/
def churnModes : List ℤ :=
  [AntiAliasingMode.NONE, AntiAliasingMode.TAA, AntiAliasingMode.NONE,
   AntiAliasingMode.TAA, AntiAliasingMode.NONE, AntiAliasingMode.TAA]

/-- The render loop right after initialization to None followed by one
Temporal activation. -/
def rlAfterTaa : RLState :=
  (runModes blankRL [AntiAliasingMode.NONE, AntiAliasingMode.TAA]).1

/-- Recognizes a pass-construction event. -/
def isAllocEvent : RLEvent → Bool
  | RLEvent.allocPass _ => true
  | _ => false

/-- Recognizes a pass-disposal event. -/
def isDisposeEvent : RLEvent → Bool
  | RLEvent.disposePass _ => true
  | _ => false

/-- The set of recognized enumeration values. -/
def recognizedMode (mode : ℤ) : Prop :=
  mode = AntiAliasingMode.NONE ∨ mode = AntiAliasingMode.MSAA ∨
  mode = AntiAliasingMode.SSAA ∨ mode = AntiAliasingMode.TAA ∨
  mode = AntiAliasingMode.MOTION

instance (mode : ℤ) : Decidable (recognizedMode mode) := by
  unfold recognizedMode; infer_instance

/-! ### MotionVectorRenderer object substitution
Embeds `MotionVectorRenderer.prototype.renderMotionMap`
(src/MotionVectorRenderer.js): the per-object material swap, the render, and
the restore traversal.  Uniform values (transform matrices, color scale) do
not affect which material an object ends up with, so they are not tracked;
materials are identified by ghost ids.
-/

/-- A drawable as the motion renderer sees it: stable id, optional material,
and the temporary `oldMaterial` field (absent = `none`). -/
structure SceneObject where
  id : ℕ
  material : Option ℕ
  oldMaterial : Option ℕ
deriving DecidableEq

/-- State of a `MotionVectorRenderer`: the per-object-id cache of cloned
motion materials and a ghost counter for fresh clones. -/
structure MvrState where
  cachedMotionMaterials : List (ℕ × ℕ)
  nextMaterialId : ℕ
deriving DecidableEq

/-- Lookup in the material cache. -/
def lookupCache (c : List (ℕ × ℕ)) (i : ℕ) : Option ℕ :=
  (c.find? fun p => p.1 == i).map Prod.snd

/-- The first traversal of `renderMotionMap` for one object: objects without
a material are skipped; otherwise `oldMaterial` saves the current material
and the material becomes the cached motion clone, or a fresh clone that is
added to the cache. -/
def prepareObject (st : MvrState) (o : SceneObject) : MvrState × SceneObject :=
  match o.material with
  | none => (st, o)
  | some _ =>
    match lookupCache st.cachedMotionMaterials o.id with
    | some cm => (st, { o with oldMaterial := o.material, material := some cm })
    | none =>
      ({ cachedMotionMaterials := st.cachedMotionMaterials ++ [(o.id, st.nextMaterialId)],
         nextMaterialId := st.nextMaterialId + 1 },
       { o with oldMaterial := o.material, material := some st.nextMaterialId })

/-- The first traversal over the whole scene, threading the cache. -/
def prepareScene (st : MvrState) : List SceneObject → MvrState × List SceneObject
  | [] => (st, [])
  | o :: rest =>
    let r₁ := prepareObject st o
    let r₂ := prepareScene r₁.1 rest
    (r₂.1, r₁.2 :: r₂.2)

/-- The restore traversal for one object:
`if (object.material) { object.material = object.oldMaterial;
delete object.oldMaterial; }`. -/
def restoreObject (o : SceneObject) : SceneObject :=
  match o.material with
  | none => o
  | some _ => { o with material := o.oldMaterial, oldMaterial := none }

/-- Embeds `renderMotionMap`: prepare every object, render once (the render
itself does not change any drawable), then restore every object. -/
def renderMotionMap (st : MvrState) (scene : List SceneObject) :
    MvrState × List SceneObject :=
  let r := prepareScene st scene
  (r.1, r.2.map restoreObject)

/-- A small concrete scene: one drawable with a material, one without. -/
def exampleScene : List SceneObject :=
  [⟨1, some 5, none⟩, ⟨2, none, none⟩]

/-! ## Theorems -/

/-- Invariant of the Halton loop: starting from accumulator `result` with
remaining weight `f > 0`, the loop returns a value in `[result, result + f)`,
for any fuel and index. -/
theorem haltonLoop_bounds (base : ℕ) (hb : 2 ≤ base) :
    ∀ (fuel index : ℕ) (f result : ℚ), 0 < f →
      result ≤ haltonLoop base fuel index f result ∧
      haltonLoop base fuel index f result < result + f := by
  intro fuel
  induction fuel with
  | zero =>
    intro index f result hf
    constructor
    · simp [haltonLoop]
    · simp only [haltonLoop]; linarith
  | succ n ih =>
    intro index f result hf
    rcases Nat.eq_zero_or_pos index with h0 | h0
    · constructor <;> simp only [haltonLoop, h0, if_pos] <;> linarith
    · have hne : ¬ index = 0 := by omega
      have hbQ : (0 : ℚ) < (base : ℚ) := by exact_mod_cast (by omega : 0 < base)
      have hf' : 0 < f / (base : ℚ) := div_pos hf hbQ
      have hm0 : (0 : ℚ) ≤ ((index % base : ℕ) : ℚ) := by positivity
      have hmlt : index % base + 1 ≤ base := Nat.mod_lt index (by omega)
      have hm1 : ((index % base : ℕ) : ℚ) + 1 ≤ (base : ℚ) := by exact_mod_cast hmlt
      have key := ih (index / base) (f / (base : ℚ))
        (result + f / (base : ℚ) * ((index % base : ℕ) : ℚ)) hf'
      simp only [haltonLoop, if_neg hne]
      constructor
      · nlinarith [key.1]
      · have hfb : f / (base : ℚ) * (base : ℚ) = f :=
          div_mul_cancel₀ f (ne_of_gt hbQ)
        nlinarith [key.2]

/-- The value of `_haltonNumber` lies in `[0, 1)` for every base at least 2. -/
theorem haltonNumber_bounds (base index : ℕ) (hb : 2 ≤ base) :
    0 ≤ haltonNumber base index ∧ haltonNumber base index < 1 := by
  have h := haltonLoop_bounds base hb index index 1 0 one_pos
  simpa [haltonNumber] using h

/-- Fuel adequacy, one step: once the fuel is at least the index, one more
unit of fuel changes nothing (for base at least 2 the index shrinks strictly
under division, so the loop finishes within `index` iterations). -/
theorem haltonLoop_fuel_succ (base : ℕ) (hb : 2 ≤ base) :
    ∀ (fuel index : ℕ) (f result : ℚ), index ≤ fuel →
      haltonLoop base (fuel + 1) index f result =
        haltonLoop base fuel index f result := by
  intro fuel
  induction fuel with
  | zero =>
    intro index f result hle
    have h0 : index = 0 := by omega
    simp [haltonLoop, h0]
  | succ n ih =>
    intro index f result hle
    rcases Nat.eq_zero_or_pos index with h0 | h0
    · simp [haltonLoop, h0]
    · have hne : ¬ index = 0 := by omega
      have hdiv : index / base ≤ n := by
        have := Nat.div_lt_self h0 (by omega : 1 < base)
        omega
      simp only [haltonLoop, if_neg hne]
      exact ih _ _ _ hdiv

/-- Fuel adequacy: any fuel at least `index` computes `_haltonNumber`. -/
theorem haltonLoop_fuel_add (base : ℕ) (hb : 2 ≤ base)
    (index extra : ℕ) (f result : ℚ) :
    haltonLoop base (index + extra) index f result =
      haltonLoop base index index f result := by
  induction extra with
  | zero => rfl
  | succ n ih =>
    calc haltonLoop base (index + n + 1) index f result
        = haltonLoop base (index + n) index f result :=
          haltonLoop_fuel_succ base hb (index + n) index f result (by omega)
      _ = haltonLoop base index index f result := ih

/-- C10: for every base at least 2 and every index, `_haltonNumber`
terminates — the loop variable strictly decreases under floor division and
any fuel beyond `index` is irrelevant — and the result lies in `[0, 1)`. -/
theorem C10_halton_terminates_in_range (base index extra : ℕ) (hb : 2 ≤ base) :
    (0 < index → index / base < index) ∧
    haltonLoop base (index + extra) index 1 0 = haltonNumber base index ∧
    0 ≤ haltonNumber base index ∧ haltonNumber base index < 1 := by
  refine ⟨fun h0 => Nat.div_lt_self h0 (by omega), ?_, ?_, ?_⟩
  · simpa [haltonNumber] using haltonLoop_fuel_add base hb index extra 1 0
  · exact (haltonNumber_bounds base index hb).1
  · exact (haltonNumber_bounds base index hb).2

/-- Witness for C10 at base 3, index 7, extra fuel 5. -/
theorem C10_witness :
    2 ≤ 3 ∧ (0 < 7 → 7 / 3 < 7) ∧
    haltonLoop 3 (7 + 5) 7 1 0 = haltonNumber 3 7 ∧
    0 ≤ haltonNumber 3 7 ∧ haltonNumber 3 7 < 1 := by
  have h := C10_halton_terminates_in_range 3 7 5 (by decide)
  exact ⟨by decide, h.1, h.2.1, h.2.2.1, h.2.2.2⟩

/-- C7: `_generateHaltonJiters(length)` returns exactly `length` samples;
sample `k` is built from Halton index `k + 1` with base 2 for x and base 3
for y (so sample 0 comes from index 1, not from the zero sample of either
base sequence); every coordinate lies in `[-1, 1]`; and the first samples of
both base sequences are nonzero while index 0 would give the zero sample.
Determinism is inherent: the generator is a pure function of `length`. -/
theorem C7_generateHaltonJiters (length : ℕ) :
    (generateHaltonJiters length).length = length ∧
    (∀ k, k < length →
      (generateHaltonJiters length)[k]? =
        some ((haltonNumber 2 (k + 1) - 1/2) * 2,
              (haltonNumber 3 (k + 1) - 1/2) * 2)) ∧
    (∀ p ∈ generateHaltonJiters length,
      -1 ≤ p.1 ∧ p.1 ≤ 1 ∧ -1 ≤ p.2 ∧ p.2 ≤ 1) ∧
    haltonNumber 2 0 = 0 ∧ haltonNumber 3 0 = 0 ∧
    haltonNumber 2 1 = 1/2 ∧ haltonNumber 3 1 = 1/3 := by
  refine ⟨by simp [generateHaltonJiters], ?_, ?_,
    by norm_num [haltonNumber, haltonLoop],
    by norm_num [haltonNumber, haltonLoop],
    by norm_num [haltonNumber, haltonLoop],
    by norm_num [haltonNumber, haltonLoop]⟩
  · intro k hk
    simp [generateHaltonJiters, List.getElem?_map, List.getElem?_range hk]
  · intro p hp
    simp only [generateHaltonJiters, List.mem_map, List.mem_range] at hp
    obtain ⟨k, hk, rfl⟩ := hp
    obtain ⟨h2a, h2b⟩ := haltonNumber_bounds 2 (k + 1) (by omega)
    obtain ⟨h3a, h3b⟩ := haltonNumber_bounds 3 (k + 1) (by omega)
    exact ⟨by simp; linarith, by simp; linarith, by simp; linarith, by simp; linarith⟩

/-- Witness for C7 at length 16, sample 0. -/
theorem C7_witness :
    (generateHaltonJiters 16).length = 16 ∧ 0 < 16 ∧
    (generateHaltonJiters 16)[0]? =
      some ((haltonNumber 2 1 - 1/2) * 2, (haltonNumber 3 1 - 1/2) * 2) :=
  ⟨(C7_generateHaltonJiters 16).1, by decide,
   (C7_generateHaltonJiters 16).2.1 0 (by decide)⟩

/-- C2 counterexample: the round trip fails already at scale 1 with
displacement `(1/2, 0)`: the compositor decodes `(1/4, 0)`, half of it. -/
theorem C2_counterexample :
    decodeMotion (encodeMotion 1 (1/2, 0)) ≠ ((1/2 : ℚ), (0 : ℚ)) := by
  norm_num [decodeMotion, encodeMotion, encodeMotionComponent, Prod.mk.injEq]

/-- C2 amended: decode is not the inverse of encode; the composition yields
`s * d / 2`, so the history sample is taken at `pixelUV - s * d / 2` (half
the displacement when the TAA pass passes scale 1).  Zero displacement still
encodes to the neutral midpoint `0.5`, and the midpoint decodes to zero. -/
theorem C2_encode_decode (s : ℚ) (d : ℚ × ℚ) (uv : ℚ × ℚ) :
    decodeMotion (encodeMotion s d) = (s * d.1 / 2, s * d.2 / 2) ∧
    encodeMotion s (0, 0) = (1/2, 1/2) ∧
    decodeMotion (1/2, 1/2) = (0, 0) ∧
    reprojectedUv uv (encodeMotion s d) =
      (uv.1 - s * d.1 / 2, uv.2 - s * d.2 / 2) := by
  refine ⟨?_, ?_, by norm_num [decodeMotion, Prod.mk.injEq], ?_⟩ <;>
    simp only [decodeMotion, encodeMotion, encodeMotionComponent, reprojectedUv,
      Prod.mk.injEq] <;>
    constructor <;> ring

/-- The square-root model is exact at zero. -/
theorem ratSqrt_zero : ratSqrt 0 = 0 := by
  simp [ratSqrt]

/-- The fragment shader computes, for every pixel, exactly the straight-line
formula of `compositeReference`; in particular it contains no bounds test on
the reprojected coordinate. -/
theorem reprojectFragment_eq_reference (u : ReprojectUniforms) (uv : ℚ × ℚ) :
    reprojectFragment u uv = compositeReference u uv := by
  simp only [reprojectFragment, compositeReference, neighborhoodScan,
    neighborOffsets, List.foldl, texture2D]

/-- Value of the shader at the counterexample pixel: the neighborhood average
equals the center texel, so the blend weight is zero and the composite is the
clamped history sample. -/
theorem reprojectFragment_exampleC1 :
    reprojectFragment exampleC1 exampleC1Uv = ⟨3/5, 1/2, 1/2, 1⟩ := by
  norm_num [reprojectFragment, neighborhoodScan, neighborOffsets, List.foldl,
    texture2D, clampUV, clamp01, reprojectedUv, decodeMotion, max4, min4, clamp4,
    add4, smul4, div4, mix4, glslDistance, ratSqrt_zero, exampleC1, exampleC1Uv,
    min_def, max_def, Vec4.mk.injEq]

/-- C1 counterexample: at `exampleC1` the reprojected coordinate (-3/4, 1/2)
lies outside the unit UV range, yet the composite (3/5 in red) differs from
the current pixel (1/2 in red): history is not discarded. -/
theorem C1_counterexample :
    ¬ inUnitUV (reprojectedUv exampleC1Uv
      ((texture2D exampleC1.tMotion exampleC1Uv).x,
       (texture2D exampleC1.tMotion exampleC1Uv).y)) ∧
    reprojectFragment exampleC1 exampleC1Uv ≠
      texture2D exampleC1.tDiffuse exampleC1Uv := by
  constructor
  · norm_num [inUnitUV, reprojectedUv, decodeMotion, texture2D, clampUV, clamp01,
      exampleC1, exampleC1Uv, min_def, max_def]
  · rw [reprojectFragment_exampleC1]
    norm_num [texture2D, clampUV, clamp01, exampleC1, exampleC1Uv, min_def,
      max_def, Vec4.mk.injEq]

/-- C1 amended (corrected): when the reprojected coordinate falls outside the
unit UV range the shader does not discard history; it samples the history
texture at the coordinate clamped to the edge and applies exactly the same
neighborhood-clamped contrast blend as for an in-bounds pixel
(`compositeReference`), so the composite is generally not the current pixel. -/
theorem C1_out_of_bounds_no_discard (u : ReprojectUniforms) (uv : ℚ × ℚ)
    (_h : ¬ inUnitUV (reprojectedUv uv
      ((texture2D u.tMotion uv).x, (texture2D u.tMotion uv).y))) :
    reprojectFragment u uv = compositeReference u uv :=
  reprojectFragment_eq_reference u uv

/-- Witness for C1 at the concrete out-of-bounds pixel. -/
theorem C1_witness :
    ¬ inUnitUV (reprojectedUv exampleC1Uv
      ((texture2D exampleC1.tMotion exampleC1Uv).x,
       (texture2D exampleC1.tMotion exampleC1Uv).y)) ∧
    reprojectFragment exampleC1 exampleC1Uv =
      compositeReference exampleC1 exampleC1Uv := by
  have hoob : ¬ inUnitUV (reprojectedUv exampleC1Uv
      ((texture2D exampleC1.tMotion exampleC1Uv).x,
       (texture2D exampleC1.tMotion exampleC1Uv).y)) := by
    norm_num [inUnitUV, reprojectedUv, decodeMotion, texture2D, clampUV, clamp01,
      exampleC1, exampleC1Uv, min_def, max_def]
  exact ⟨hoob, C1_out_of_bounds_no_discard exampleC1 exampleC1Uv hoob⟩

/-- The jitter table has the fixed period 16. -/
theorem jitterOffsets_length : jitterOffsets.length = 16 := by
  simp [jitterOffsets, generateHaltonJiters]

/-- Once `_oldFrameTarget` exists, `render` is exactly the steady-state body;
this is the shape the bootstrap recursion relies on. -/
theorem render_steady (s : TaaState) (h : s.hasHistory = true) :
    render s = renderBody s := by
  simp [render, h]

/-- The steady-state body advances the jitter cursor by one modulo 16. -/
theorem renderBody_jitterIndex (s : TaaState) :
    (renderBody s).1.jitterIndex = (s.jitterIndex + 1) % 16 := by
  simp [renderBody, jitterOffsets_length]

/-- Cursor after `n` consecutive steady-state composites. -/
theorem renderIter_jitterIndex (n : ℕ) :
    ∀ s : TaaState, s.jitterIndex < 16 →
      (renderIter n s).1.jitterIndex = (s.jitterIndex + n) % 16 := by
  induction n with
  | zero =>
    intro s hs
    simp [renderIter, Nat.mod_eq_of_lt hs]
  | succ k ih =>
    intro s hs
    have h1 : (renderBody s).1.jitterIndex = (s.jitterIndex + 1) % 16 :=
      renderBody_jitterIndex s
    have h2 : (renderBody s).1.jitterIndex < 16 := by
      rw [h1]; exact Nat.mod_lt _ (by norm_num)
    calc (renderIter (k + 1) s).1.jitterIndex
        = (renderIter k (renderBody s).1).1.jitterIndex := by simp [renderIter]
      _ = ((renderBody s).1.jitterIndex + k) % 16 := ih _ h2
      _ = (s.jitterIndex + (k + 1)) % 16 := by rw [h1]; omega

/-- C8: the jitter cursor advances by exactly one modulo the period 16 per
steady-state composite and stays in `[0, 16)`; consequently, over any 16
consecutive composites starting from a valid cursor, the 16 cursor values
form a permutation of `{0, ..., 15}` — each jitter sample is used once. -/
theorem C8_jitter_cursor (s : TaaState) :
    (renderBody s).1.jitterIndex = (s.jitterIndex + 1) % 16 ∧
    (renderBody s).1.jitterIndex < 16 ∧
    (s.jitterIndex < 16 →
      ((List.range 16).map fun k => (renderIter k s).1.jitterIndex).Perm
        (List.range 16)) := by
  refine ⟨renderBody_jitterIndex s, ?_, ?_⟩
  · rw [renderBody_jitterIndex s]
    exact Nat.mod_lt _ (by norm_num)
  · intro hs
    have hmap : ((List.range 16).map fun k => (renderIter k s).1.jitterIndex)
        = (List.range 16).map fun k => (s.jitterIndex + k) % 16 :=
      List.map_congr_left fun k _ => renderIter_jitterIndex k s hs
    rw [hmap]
    generalize s.jitterIndex = i at hs
    interval_cases i <;> decide

/-- Witness for C8 at the concrete steady state. -/
theorem C8_witness :
    taaSteady.jitterIndex < 16 ∧
    ((List.range 16).map fun k => (renderIter k taaSteady).1.jitterIndex).Perm
      (List.range 16) :=
  ⟨by decide, (C8_jitter_cursor taaSteady).2.2 (by decide)⟩

/-- C5: on the first render after Temporal activation, the trace starts with
the history-buffer allocation and exactly one scene render, un-jittered,
directly into the history buffer; the bootstrap loop then contributes 15
full composite iterations and the fall-through body one more (16 composite
blits in total); no output copy precedes the history initialization; and by
the time the call returns, 17 internal scene renders — at least the jitter
period 16 — have completed, so the frame handed back to the host is produced
only after the bootstrap sequence. -/
theorem C5_bootstrap :
    (render taaInit).2.take 2 =
      [TaaOp.allocHistory, TaaOp.renderSceneToHistory none] ∧
    ((render taaInit).2.drop 2).countP isHistoryInit = 0 ∧
    (render taaInit).2.countP isCompositeBlit = 16 ∧
    (((render taaInit).2.drop 2).take 105).countP isCompositeBlit = 15 ∧
    (render taaInit).2.countP isSceneRenderOp = 17 ∧
    16 ≤ (render taaInit).2.countP isSceneRenderOp ∧
    ((render taaInit).2.take 2).countP isOutputCopy = 0 ∧
    (render taaInit).1.hasHistory = true ∧
    (render taaInit).1.jitterIndex = 0 := by
  decide

/-- C6 counterexample: in a steady-state frame, the stage order asserted by
the specification (jitter applied, scene rendered, motion pass, jitter
cleared) does not hold: the motion pass runs first. -/
theorem C6_counterexample : ¬ specStageOrder (renderBody taaSteady).2 := by
  decide

/-- C6 amended (corrected): each steady-state frame runs the motion pass
first, with the projection still un-jittered, then applies the jitter to the
projection, renders the scene with the jittered camera into the read buffer,
clears the jitter via `updateProjectionMatrix` before the composite copies,
and returns with the camera jitter cleared, so the projection reads as
un-jittered outside this step. -/
theorem C6_stage_order (s : TaaState) (h : s.cameraJitter = none) :
    (renderBody s).2 =
      [TaaOp.renderMotionMap none,
       TaaOp.applyJitter ((jitterOffsets.getD s.jitterIndex (0, 0)).1 / s.width,
                          (jitterOffsets.getD s.jitterIndex (0, 0)).2 / s.height),
       TaaOp.renderScene (some ((jitterOffsets.getD s.jitterIndex (0, 0)).1 / s.width,
                                (jitterOffsets.getD s.jitterIndex (0, 0)).2 / s.height)),
       TaaOp.clearJitter, TaaOp.copyReproject, TaaOp.copyToHistory,
       TaaOp.copyToOutput] ∧
    (renderBody s).1.cameraJitter = none := by
  simp [renderBody, h]

/-- Witness for C6 at the concrete steady state. -/
theorem C6_witness :
    taaSteady.cameraJitter = none ∧
    (renderBody taaSteady).1.cameraJitter = none :=
  ⟨rfl, (C6_stage_order taaSteady rfl).2⟩

/-- A conditional disposal emits no construction event. -/
theorem disposeOpt_no_alloc (o : Option ℕ) :
    ∀ e ∈ disposeOpt o, isAllocEvent e = false := by
  intro e he
  cases o with
  | none => simp [disposeOpt] at he
  | some i =>
    simp [disposeOpt] at he
    subst he
    rfl

/-- The cleanup block emits only disposal events. -/
theorem disposeEvents_no_alloc (s : RLState) :
    ∀ e ∈ disposeEvents s, isAllocEvent e = false := by
  intro e he
  unfold disposeEvents at he
  rcases List.mem_append.mp he with he | he
  · rcases List.mem_append.mp he with he | he
    · exact disposeOpt_no_alloc _ e he
    · exact disposeOpt_no_alloc _ e he
  · exact disposeOpt_no_alloc _ e he

/-- A set TAA pass field is disposed by the cleanup block. -/
theorem mem_disposeEvents_taa (s : RLState) (i : ℕ) (h : s.taaPass = some i) :
    RLEvent.disposePass i ∈ disposeEvents s := by
  unfold disposeEvents
  have hmem : RLEvent.disposePass i ∈ disposeOpt s.taaPass := by
    rw [h]; simp [disposeOpt]
  exact List.mem_append.mpr (Or.inl (List.mem_append.mpr (Or.inr hmem)))

/-- The switch statement emits no disposal events. -/
theorem switchStep_no_dispose (s : RLState) (mode : ℤ) :
    ∀ e ∈ (switchStep s mode).2, isDisposeEvent e = false := by
  intro e he
  unfold switchStep at he
  split_ifs at he <;> simp_all [isDisposeEvent]

/-- For an unrecognized mode the switch statement leaves the state alone and
only reports the diagnostic. -/
theorem switchStep_invalid (s : RLState) (mode : ℤ)
    (hmode : ¬ recognizedMode mode) :
    switchStep s mode = (s, [RLEvent.diagInvalidMode]) := by
  unfold recognizedMode at hmode
  push_neg at hmode
  obtain ⟨h0, h1, h2, h3, h4⟩ := hmode
  simp [switchStep, h0, h1, h2, h3, h4]

/-- C3 counterexample: setting the unrecognized mode 99 while Temporal is
active reports the diagnostic but does not leave the state unchanged: the
antialiasing field becomes 99 and the TAA pass is disposed. -/
theorem C3_counterexample :
    ¬ recognizedMode 99 ∧
    (setAntialiasingMode rlAfterTaa 99).1.antialiasing = some 99 ∧
    (setAntialiasingMode rlAfterTaa 99).1.antialiasing ≠ rlAfterTaa.antialiasing ∧
    RLEvent.disposePass 0 ∈ (setAntialiasingMode rlAfterTaa 99).2 ∧
    RLEvent.diagInvalidMode ∈ (setAntialiasingMode rlAfterTaa 99).2 := by
  decide

/-- C3 amended (corrected): an unrecognized mode distinct from the current
field value reports the diagnostic and constructs nothing, but it still runs
the cleanup — the composer pass list is cleared and every set pass field is
disposed (without being cleared) — and it records the unrecognized value as
the active antialiasing mode. -/
theorem C3_invalid_mode (s : RLState) (mode : ℤ)
    (hmode : ¬ recognizedMode mode) (hne : s.antialiasing ≠ some mode) :
    (setAntialiasingMode s mode).1.antialiasing = some mode ∧
    RLEvent.diagInvalidMode ∈ (setAntialiasingMode s mode).2 ∧
    (∀ e ∈ (setAntialiasingMode s mode).2, isAllocEvent e = false) ∧
    (setAntialiasingMode s mode).1.ssaaPass = s.ssaaPass ∧
    (setAntialiasingMode s mode).1.taaPass = s.taaPass ∧
    (setAntialiasingMode s mode).1.motionVec = s.motionVec ∧
    (setAntialiasingMode s mode).1.nextId = s.nextId ∧
    (setAntialiasingMode s mode).1.composerPasses = [] ∧
    (∀ i, s.taaPass = some i →
      RLEvent.disposePass i ∈ (setAntialiasingMode s mode).2) := by
  have hsw := switchStep_invalid { s with composerPasses := [] } mode hmode
  have heq : setAntialiasingMode s mode =
      ({ s with composerPasses := [], antialiasing := some mode },
       (if s.antialiasing = some AntiAliasingMode.MSAA ∨ mode = AntiAliasingMode.MSAA
        then [RLEvent.rebuildContext mode] else []) ++
         disposeEvents s ++ [RLEvent.diagInvalidMode]) := by
    simp [setAntialiasingMode, hne, hsw]
  rw [heq]
  refine ⟨rfl, ?_, ?_, rfl, rfl, rfl, rfl, rfl, ?_⟩
  · simp
  · intro e he
    rcases List.mem_append.mp he with he | he
    · rcases List.mem_append.mp he with he | he
      · split_ifs at he
        · rw [List.mem_singleton.mp he]; rfl
        · exact absurd he (List.not_mem_nil e)
      · exact disposeEvents_no_alloc s e he
    · rw [List.mem_singleton.mp he]; rfl
  · intro i hi
    exact List.mem_append.mpr
      (Or.inl (List.mem_append.mpr (Or.inr (mem_disposeEvents_taa s i hi))))

/-- Witness for C3 at the concrete Temporal state and mode 99. -/
theorem C3_witness :
    ¬ recognizedMode 99 ∧ rlAfterTaa.antialiasing ≠ some 99 ∧
    (setAntialiasingMode rlAfterTaa 99).1.antialiasing = some 99 ∧
    RLEvent.diagInvalidMode ∈ (setAntialiasingMode rlAfterTaa 99).2 :=
  ⟨by decide, by decide,
   (C3_invalid_mode rlAfterTaa 99 (by decide) (by decide)).1,
   (C3_invalid_mode rlAfterTaa 99 (by decide) (by decide)).2.1⟩

/-- C4 counterexample: in the churn None, Temporal, None, Temporal, None,
Temporal from a fresh loop, the first TAA pass (ghost id 0) is constructed
and then disposed twice, not exactly once. -/
theorem C4_counterexample :
    RLEvent.allocPass 0 ∈ (runModes blankRL churnModes).2 ∧
    (runModes blankRL churnModes).2.count (RLEvent.disposePass 0) = 2 := by
  decide

/-- C4 amended (corrected): in every `setAntialiasingMode` call all disposal
events precede all construction events (the trace splits into an alloc-free
prefix and a dispose-free suffix), and in the churn None, Temporal, None,
Temporal, None, Temporal each Temporal activation allocates exactly one pass;
but because the pass fields are never cleared after disposal, each retired
TAA pass is disposed exactly twice — once when its mode ends and once more
during the next mode switch — while the still-active pass is never disposed. -/
theorem C4_resource_churn (s : RLState) (mode : ℤ) :
    (∃ l₁ l₂, (setAntialiasingMode s mode).2 = l₁ ++ l₂ ∧
      (∀ e ∈ l₁, isAllocEvent e = false) ∧
      (∀ e ∈ l₂, isDisposeEvent e = false)) ∧
    (runModes blankRL churnModes).2.count (RLEvent.allocPass 0) = 1 ∧
    (runModes blankRL churnModes).2.count (RLEvent.allocPass 1) = 1 ∧
    (runModes blankRL churnModes).2.count (RLEvent.allocPass 2) = 1 ∧
    (runModes blankRL churnModes).2.count (RLEvent.disposePass 0) = 2 ∧
    (runModes blankRL churnModes).2.count (RLEvent.disposePass 1) = 2 ∧
    (runModes blankRL churnModes).2.count (RLEvent.disposePass 2) = 0 := by
  refine ⟨?_, by decide, by decide, by decide, by decide, by decide, by decide⟩
  by_cases h : s.antialiasing = some mode
  · exact ⟨[], [], by simp [setAntialiasingMode, h], by simp, by simp⟩
  · refine ⟨(if s.antialiasing = some AntiAliasingMode.MSAA ∨
        mode = AntiAliasingMode.MSAA
        then [RLEvent.rebuildContext mode] else []) ++ disposeEvents s,
      (switchStep { s with composerPasses := [] } mode).2, ?_, ?_, ?_⟩
    · simp [setAntialiasingMode, h, List.append_assoc]
    · intro e he
      rcases List.mem_append.mp he with he | he
      · split_ifs at he <;> simp_all [isAllocEvent]
      · exact disposeEvents_no_alloc s e he
    · exact switchStep_no_dispose _ mode

/-- Witness for C4 at a concrete state and mode. -/
theorem C4_witness :
    (∃ l₁ l₂, (setAntialiasingMode rlAfterTaa AntiAliasingMode.NONE).2 = l₁ ++ l₂ ∧
      (∀ e ∈ l₁, isAllocEvent e = false) ∧
      (∀ e ∈ l₂, isDisposeEvent e = false)) ∧
    (runModes blankRL churnModes).2.count (RLEvent.disposePass 0) = 2 :=
  ⟨(C4_resource_churn rlAfterTaa AntiAliasingMode.NONE).1,
   (C4_resource_churn rlAfterTaa AntiAliasingMode.NONE).2.2.2.2.1⟩

/-- After the prepare and restore traversals, every object with a material is
exactly as before except that the temporary field is absent, and objects
without a material are untouched — independently of the material cache. -/
theorem prepareScene_restore (st : MvrState) (scene : List SceneObject) :
    (prepareScene st scene).2.map restoreObject =
      scene.map fun o =>
        match o.material with
        | none => o
        | some _ => { o with oldMaterial := none } := by
  induction scene generalizing st with
  | nil => simp [prepareScene]
  | cons o rest ih =>
    cases hm : o.material with
    | none =>
      simp [prepareScene, prepareObject, hm, restoreObject, ih]
    | some m =>
      cases hc : lookupCache st.cachedMotionMaterials o.id with
      | some cm =>
        simp [prepareScene, prepareObject, hm, hc, restoreObject, ih]
      | none =>
        simp [prepareScene, prepareObject, hm, hc, restoreObject, ih]

/-- C9: `renderMotionMap` restores every drawable: each object keeps its
original material; the only possible difference is that the temporary
saved-material field is removed from objects that had a material; and on a
scene whose objects carry no leftover temporary field — the state every
scene is in outside the call — the scene is returned entirely unchanged. -/
theorem C9_renderMotionMap_restores (st : MvrState) (scene : List SceneObject) :
    (renderMotionMap st scene).2 =
      scene.map (fun o =>
        match o.material with
        | none => o
        | some _ => { o with oldMaterial := none }) ∧
    ((∀ o ∈ scene, o.oldMaterial = none) → (renderMotionMap st scene).2 = scene) := by
  have hmain : (renderMotionMap st scene).2 =
      scene.map (fun o =>
        match o.material with
        | none => o
        | some _ => { o with oldMaterial := none }) := by
    simpa [renderMotionMap] using prepareScene_restore st scene
  refine ⟨hmain, fun hclean => ?_⟩
  rw [hmain]
  have hid : ∀ o ∈ scene,
      (match o.material with
        | none => o
        | some _ => { o with oldMaterial := none }) = id o := by
    intro o ho
    cases hm : o.material with
    | none => rfl
    | some m =>
      have hold := hclean o ho
      cases o with
      | mk i mat old => simp_all
  calc scene.map _ = scene.map id := List.map_congr_left hid
    _ = scene := List.map_id scene

/-- Witness for C9 at the concrete two-object scene. -/
theorem C9_witness :
    (∀ o ∈ exampleScene, o.oldMaterial = none) ∧
    (renderMotionMap ⟨[], 0⟩ exampleScene).2 = exampleScene :=
  ⟨by decide, (C9_renderMotionMap_restores ⟨[], 0⟩ exampleScene).2 (by decide)⟩

end TaaDemo
